import Mathlib

/-!
Verification of the SG Hawker Airflow Simulator (`src/app.py`) against its
natural-language specification.

The embedding follows the source closely:
* the fan catalog `FAN_SPECS` and the constant `SS_553_TARGET_ACH` (lines 50-100);
* the ACH computation (lines 242-246), the compliance branch and the
  additional-fan deficit estimate (lines 296-313);
* the velocity-field simulation `generate_sim_data` (lines 320-352), including
  the 40x40 `linspace` grid, the rows/cols fan placement, the exponential decay
  contribution and the height attenuation factor;
* the average-velocity statistic `np.mean(V)` (line 429).

Exact arithmetic (`ℚ` for everything the source computes with ordinary
arithmetic, `ℝ` only where `exp`/`sqrt` force it) is used in place of
floating point.  Python's `ZeroDivisionError` is modelled with `Except`.
-/

namespace Airflow

/-- A fan catalog entry: `wattage`, `cfm` (rated flow) and coverage `radius`,
as in the `FAN_SPECS` dictionary of `src/app.py`. -/
structure FanSpec where
  wattage : ℚ
  cfm : ℚ
  radius : ℚ
deriving DecidableEq

/-- "HVLS (High Volume Low Speed)" entry of `FAN_SPECS`. -/
def hvls : FanSpec := ⟨1500, 35000, 9/2⟩

/-- "Industrial Ceiling Fan" entry of `FAN_SPECS`. -/
def industrialCeiling : FanSpec := ⟨85, 12000, 3/2⟩

/-- "Wall Mount Fan" entry of `FAN_SPECS`. -/
def wallMount : FanSpec := ⟨65, 6500, 4/5⟩

/-- "Pedestal Fan" entry of `FAN_SPECS`. -/
def pedestal : FanSpec := ⟨75, 8000, 1⟩

/-- "Misting Fan" entry of `FAN_SPECS`. -/
def misting : FanSpec := ⟨200, 10000, 2⟩

/-- The fixed fan catalog `FAN_SPECS` of `src/app.py` (lines 54-100). -/
def catalog : List FanSpec := [hvls, industrialCeiling, wallMount, pedestal, misting]

/-- `SS_553_TARGET_ACH = 20` (line 50). -/
def SS_553_TARGET_ACH : ℚ := 20

/-- The m³ → ft³ conversion constant `35.3147` (line 244). -/
def FT3_PER_M3 : ℚ := 353147/10000

/-- `volume_ft3 = width * length * height * 35.3147` (lines 243-244). -/
def volume_ft3 (w l h : ℚ) : ℚ := w * l * h * FT3_PER_M3

/-- `total_cfm = num_fans * FAN_SPECS[fan_choice]["cfm"]` (line 245). -/
def total_cfm (n : ℕ) (s : FanSpec) : ℚ := n * s.cfm

/-- `ach_calculated = (total_cfm * 60) / volume_ft3 if volume_ft3 > 0 else 0`
(line 246). -/
def ach_calculated (w l h : ℚ) (n : ℕ) (s : FanSpec) : ℚ :=
  if 0 < volume_ft3 w l h then total_cfm n s * 60 / volume_ft3 w l h else 0

/-- Runtime failures of the Python computation.  The source contains no
structured error values; the only failure it can produce on the guarded
paths modelled here is an (unguarded) `ZeroDivisionError`.  The constructor
`invalidConfiguration` exists solely so that the specification's claimed
error outcome is expressible; the embedded code never produces it. -/
inductive SimError where
  | zeroDivision
  | invalidConfiguration
deriving DecidableEq

/-- Python division: raises `ZeroDivisionError` on a zero denominator. -/
def pydiv (a b : ℚ) : Except SimError ℚ :=
  if b = 0 then .error .zeroDivision else .ok (a / b)

/-- `additional_fans_needed = int(np.ceil(deficit / (FAN_SPECS[fan_choice]["cfm"]
* 60 / volume_ft3)))` with `deficit = SS_553_TARGET_ACH - ach_calculated`
(lines 297-298), with Python's division-by-zero behaviour made explicit. -/
def additional_fans_needed (w l h : ℚ) (n : ℕ) (s : FanSpec) : Except SimError ℤ :=
  match pydiv (s.cfm * 60) (volume_ft3 w l h) with
  | .error e => .error e
  | .ok perFan =>
    match pydiv (SS_553_TARGET_ACH - ach_calculated w l h n s) perFan with
    | .error e => .error e
    | .ok ratio => .ok ⌈ratio⌉

/-- Outcome of the compliance section (lines 296-313): either the compliant
banner, or the warning banner carrying the additional-fan recommendation. -/
inductive ComplianceStatus where
  | compliant
  | nonCompliant (additionalFans : ℤ)
deriving DecidableEq

/-- The compliance branch `if ach_calculated < SS_553_TARGET_ACH: ... else: ...`
(lines 296-313). -/
def complianceStatus (w l h : ℚ) (n : ℕ) (s : FanSpec) : Except SimError ComplianceStatus :=
  if ach_calculated w l h n s < SS_553_TARGET_ACH then
    match additional_fans_needed w l h n s with
    | .error e => .error e
    | .ok k => .ok (.nonCompliant k)
  else
    .ok .compliant

/-! ### The velocity-field simulation `generate_sim_data` (lines 320-352) -/

/-- `grid_size = 40` (line 323). -/
def grid_size : ℕ := 40

/-- A coordinate of `np.linspace(0, w, 40)` (lines 324-325): the `j`-th grid
coordinate along an axis of physical extent `w` is `j * w / 39`. -/
def gridCoord (w : ℚ) (j : ℕ) : ℚ := j * w / 39

/-- `rows = int(np.sqrt(n))` (line 330): the integer square root. -/
def rows (n : ℕ) : ℕ := Nat.sqrt n

/-- `cols = int(np.ceil(n / rows))` (line 331), in exact arithmetic. -/
def cols (n : ℕ) : ℕ := ⌈(n : ℚ) / (rows n : ℚ)⌉₊

/-- `strength = fan_spec["cfm"] / 10000` (line 335). -/
def strength (s : FanSpec) : ℚ := s.cfm / 10000

/-- `height_factor = 1.0 - min(h / 10, 0.5)` (line 349). -/
def height_factor (h : ℚ) : ℚ := 1 - min (h / 10) (1/2)

/-- Fan `i`'s x coordinate (lines 338-341):
`fx = (i % cols + 0.5) * (w / cols) if cols > 0 else w / 2`. -/
def fanX (n : ℕ) (w : ℚ) (i : ℕ) : ℚ :=
  if 0 < cols n then ((i % cols n : ℕ) + 1/2) * (w / cols n) else w / 2

/-- Fan `i`'s y coordinate (lines 343-346):
`fy = (i // cols + 0.5) * (l / rows) if rows > 0 else l / 2`. -/
def fanY (n : ℕ) (l : ℚ) (i : ℕ) : ℚ :=
  if 0 < rows n then ((i / cols n : ℕ) + 1/2) * (l / rows n) else l / 2

/-- Fan `i`'s position in the room. -/
def fanPos (n : ℕ) (w l : ℚ) (i : ℕ) : ℚ × ℚ := (fanX n w i, fanY n l i)

/-- Squared euclidean distance between two points (the argument of the
`np.sqrt` in `dist = np.sqrt((X - fx)**2 + (Y - fy)**2)`, line 348). -/
def distSq (p q : ℚ × ℚ) : ℚ := (p.1 - q.1)^2 + (p.2 - q.2)^2

/-- The per-fan contribution without the height factor:
`strength * np.exp(-dist / (r_val * 1.5))` (line 350). -/
noncomputable def rawContribution (s : FanSpec) (p q : ℚ × ℚ) : ℝ :=
  (strength s : ℝ) * Real.exp (-Real.sqrt (distSq p q) / ((s.radius : ℝ) * (3/2)))

/-- The term added to `V` for one fan (line 350):
`strength * np.exp(-dist / (r_val * 1.5)) * height_factor`. -/
noncomputable def contribution (s : FanSpec) (h : ℚ) (p q : ℚ × ℚ) : ℝ :=
  rawContribution s p q * (height_factor h : ℝ)

/-- The value of the field `V` of `generate_sim_data` at a point `p`:
`V` starts at zero and, when `n > 0`, the loop over `i in range(n)` adds each
fan's contribution (lines 327-350). -/
noncomputable def V (w l h : ℚ) (n : ℕ) (s : FanSpec) (p : ℚ × ℚ) : ℝ :=
  if 0 < n then ∑ i ∈ Finset.range n, contribution s h p (fanPos n w l i) else 0

/-- `avg_velocity = np.mean(V)` (line 429): the mean of the 40×40 field values;
grid cell `(a, b)` of the meshgrid holds the value at `(x_b, y_a)`. -/
noncomputable def avg_velocity (w l h : ℚ) (n : ℕ) (s : FanSpec) : ℝ :=
  (∑ ab : Fin grid_size × Fin grid_size,
      V w l h n s (gridCoord w ab.2, gridCoord l ab.1)) / 1600

/-- The field produced by an explicit list of fan positions: used to state
what the adding-a-fan monotonicity argument is actually about. -/
noncomputable def Vat (s : FanSpec) (h : ℚ) (ps : List (ℚ × ℚ)) (p : ℚ × ℚ) : ℝ :=
  (ps.map (contribution s h p)).sum

/-- Mean of `Vat` over the 40×40 grid. -/
noncomputable def avgAt (w l : ℚ) (s : FanSpec) (h : ℚ) (ps : List (ℚ × ℚ)) : ℝ :=
  (∑ ab : Fin grid_size × Fin grid_size,
      Vat s h ps (gridCoord w ab.2, gridCoord l ab.1)) / 1600

/-- The fan positions computed by the placement loop. -/
def fanPositions (n : ℕ) (w l : ℚ) : List (ℚ × ℚ) :=
  (List.range n).map (fanPos n w l)

/-! ### Shared lemmas -/

lemma volume_ft3_pos {w l h : ℚ} (hw : 0 < w) (hl : 0 < l) (hh : 0 < h) :
    0 < volume_ft3 w l h := by
  unfold volume_ft3 FT3_PER_M3
  positivity

lemma ach_eq {w l h : ℚ} (hv : 0 < volume_ft3 w l h) (n : ℕ) (s : FanSpec) :
    ach_calculated w l h n s = (n : ℚ) * s.cfm * 60 / volume_ft3 w l h := by
  unfold ach_calculated total_cfm
  rw [if_pos hv]

lemma half_le_height_factor (h : ℚ) : 1/2 ≤ height_factor h := by
  unfold height_factor
  have hm : min (h / 10) (1/2) ≤ 1/2 := min_le_right _ _
  linarith

lemma contribution_nonneg {s : FanSpec} (hc : 0 ≤ s.cfm) (h : ℚ) (p q : ℚ × ℚ) :
    0 ≤ contribution s h p q := by
  unfold contribution rawContribution
  have h1 : (0:ℚ) ≤ strength s := by
    unfold strength
    positivity
  have h2 : (0:ℚ) ≤ height_factor h := by
    have := half_le_height_factor h
    linarith
  have h1' : (0:ℝ) ≤ ((strength s : ℚ) : ℝ) := by exact_mod_cast h1
  have h2' : (0:ℝ) ≤ ((height_factor h : ℚ) : ℝ) := by exact_mod_cast h2
  exact mul_nonneg (mul_nonneg h1' (Real.exp_pos _).le) h2'

lemma catalog_cfm_pos {s : FanSpec} (hs : s ∈ catalog) : 0 < s.cfm := by
  fin_cases hs <;>
    norm_num [hvls, industrialCeiling, wallMount, pedestal, misting]

lemma additional_ok {w l h : ℚ} {n : ℕ} {s : FanSpec}
    (hv : 0 < volume_ft3 w l h) (hc : s.cfm ≠ 0) :
    additional_fans_needed w l h n s =
      .ok ⌈(SS_553_TARGET_ACH - ach_calculated w l h n s) /
            (s.cfm * 60 / volume_ft3 w l h)⌉ := by
  have h1 : volume_ft3 w l h ≠ 0 := hv.ne'
  have h2 : s.cfm * 60 / volume_ft3 w l h ≠ 0 :=
    div_ne_zero (mul_ne_zero hc (by norm_num)) h1
  have e1 : pydiv (s.cfm * 60) (volume_ft3 w l h) =
      .ok (s.cfm * 60 / volume_ft3 w l h) := by
    rw [pydiv, if_neg h1]
  have e2 : pydiv (SS_553_TARGET_ACH - ach_calculated w l h n s)
      (s.cfm * 60 / volume_ft3 w l h) =
      .ok ((SS_553_TARGET_ACH - ach_calculated w l h n s) /
            (s.cfm * 60 / volume_ft3 w l h)) := by
    rw [pydiv, if_neg h2]
  simp only [additional_fans_needed, e1, e2]

lemma vol_30_40_5_pos : (0:ℚ) < volume_ft3 30 40 5 := by
  norm_num [volume_ft3, FT3_PER_M3]

lemma ach_30_40_5_6_hvls : ach_calculated 30 40 5 6 hvls = 21000000/353147 := by
  rw [ach_eq vol_30_40_5_pos]
  norm_num [hvls, volume_ft3, FT3_PER_M3]

lemma ach_30_40_5_1_wallMount : ach_calculated 30 40 5 1 wallMount = 650000/353147 := by
  rw [ach_eq vol_30_40_5_pos]
  norm_num [wallMount, volume_ft3, FT3_PER_M3]

lemma additional_scenario2 :
    additional_fans_needed 30 40 5 1 wallMount = .ok 10 := by
  rw [additional_ok vol_30_40_5_pos (by norm_num [wallMount])]
  congr 1
  rw [Int.ceil_eq_iff, ach_30_40_5_1_wallMount]
  constructor <;> norm_num [SS_553_TARGET_ACH, wallMount, volume_ft3, FT3_PER_M3]

/-! ### Claim theorems -/

/-- C1: for every room with positive width, length and height, every fan model
and every fan count `n` (the rectangular-room code always counts all `n` fans
as placed), `ach_calculated = (n * flow * 60) / (w*l*h*35.3147)`; at width 30,
length 40, height 5 with the 35000-CFM HVLS model and 6 fans the ACH is within
0.1 of 59.5 and the configuration is reported compliant. -/
theorem C1_ach_formula_and_example :
    (∀ (w l h : ℚ), 0 < w → 0 < l → 0 < h → ∀ (n : ℕ) (s : FanSpec),
        ach_calculated w l h n s =
          ((n : ℚ) * s.cfm * 60) / (w * l * h * (353147/10000))) ∧
    |ach_calculated 30 40 5 6 hvls - 119/2| < 1/10 ∧
    complianceStatus 30 40 5 6 hvls = .ok .compliant := by
  refine ⟨?_, ?_, ?_⟩
  · intro w l h hw hl hh n s
    rw [ach_eq (volume_ft3_pos hw hl hh)]
    rfl
  · rw [ach_30_40_5_6_hvls, abs_lt]
    constructor <;> norm_num
  · simp only [complianceStatus, SS_553_TARGET_ACH, ach_30_40_5_6_hvls]
    rw [if_neg (by norm_num)]

/-- Witness for C1: the formula instantiated at the example scenario. -/
theorem C1_witness :
    ach_calculated 30 40 5 6 hvls =
      ((6:ℕ) : ℚ) * hvls.cfm * 60 / (30 * 40 * 5 * (353147/10000)) :=
  C1_ach_formula_and_example.1 30 40 5 (by norm_num) (by norm_num) (by norm_num) 6 hvls

/-- C3: for every fan count `n ≥ 1`, `rows n` is the floor of the square root
of `n` (characterised by its defining inequalities), `cols n` is the ceiling
of `n / rows n` (characterised likewise), both are at least 1 (so no division
by zero occurs), and fan `i < n` sits at
`((i mod cols) + 0.5) * (w / cols), ((i div cols) + 0.5) * (l / rows)`;
in the degenerate case `n = 0` the guarded fallback places coordinates at
`w/2` and `l/2` instead of dividing by zero. -/
theorem C3_fan_placement :
    (∀ n : ℕ, 1 ≤ n →
      (rows n * rows n ≤ n ∧ n < (rows n + 1) * (rows n + 1)) ∧
      ((n : ℚ) / (rows n : ℚ) ≤ (cols n : ℚ) ∧
        (cols n : ℚ) < (n : ℚ) / (rows n : ℚ) + 1) ∧
      1 ≤ rows n ∧ 1 ≤ cols n ∧
      ∀ (w l : ℚ) (i : ℕ), i < n →
        fanX n w i = ((i % cols n : ℕ) + 1/2) * (w / cols n) ∧
        fanY n l i = ((i / cols n : ℕ) + 1/2) * (l / rows n)) ∧
    (∀ (w l : ℚ) (i : ℕ), fanX 0 w i = w / 2 ∧ fanY 0 l i = l / 2) := by
  constructor
  · intro n hn
    have hr : 0 < rows n := Nat.sqrt_pos.mpr hn
    have hq : (0:ℚ) < (n : ℚ) / (rows n : ℚ) := by
      apply div_pos
      · exact_mod_cast hn
      · exact_mod_cast hr
    have hc : 0 < cols n := Nat.ceil_pos.mpr hq
    refine ⟨⟨Nat.sqrt_le n, Nat.lt_succ_sqrt n⟩, ⟨Nat.le_ceil _, ?_⟩, hr, hc, ?_⟩
    · exact Nat.ceil_lt_add_one hq.le
    · intro w l i _
      constructor
      · rw [fanX, if_pos hc]
      · rw [fanY, if_pos hr]
  · intro w l i
    constructor
    · rw [fanX, cols, rows]
      norm_num
    · rw [fanY, rows]
      norm_num

/-- Witness for C3 at `n = 6`, fan index 3, room 30 × 40. -/
theorem C3_witness :
    rows 6 * rows 6 ≤ 6 ∧ 6 < (rows 6 + 1) * (rows 6 + 1) ∧
    1 ≤ rows 6 ∧ 1 ≤ cols 6 ∧
    fanX 6 30 3 = ((3 % cols 6 : ℕ) + 1/2) * (30 / cols 6) ∧
    fanY 6 40 3 = ((3 / cols 6 : ℕ) + 1/2) * (40 / rows 6) := by
  have H := C3_fan_placement.1 6 (by norm_num)
  have HP := H.2.2.2.2 30 40 3 (by norm_num)
  exact ⟨H.1.1, H.1.2, H.2.2.1, H.2.2.2.1, HP.1, HP.2⟩

/-- C4 counterexample: in the second example scenario (30 × 40 × 5, wall-mount
fan with flow 6500, one fan installed), the code recommends 10 additional
fans, and 10 is not the smallest `k` with `k * 6500 * 60 / volume_ft3 ≥ 20`
(that `k` is 11): the returned count itself does not satisfy the claimed
bound. -/
theorem C4_counterexample :
    additional_fans_needed 30 40 5 1 wallMount = .ok 10 ∧
    ¬ (20 ≤ (10:ℚ) * 6500 * 60 / volume_ft3 30 40 5) := by
  refine ⟨additional_scenario2, ?_⟩
  norm_num [volume_ft3, FT3_PER_M3]

/-- C4 (amended): the deficit estimate is
`ceil((target − ACH) / (flow*60/volume_ft3))`, which counts fans to add on
top of the existing ones: in the example scenario it returns 10, and 10 is
the smallest `k` such that `(1 + k) * 6500 * 60 / volume_ft3 ≥ 20` (11 fans
in total reach compliance). -/
theorem C4_amended_deficit :
    (∀ (w l h : ℚ) (n : ℕ) (s : FanSpec), 0 < volume_ft3 w l h → s.cfm ≠ 0 →
      additional_fans_needed w l h n s =
        .ok ⌈(20 - ach_calculated w l h n s) / (s.cfm * 60 / volume_ft3 w l h)⌉) ∧
    additional_fans_needed 30 40 5 1 wallMount = .ok 10 ∧
    20 ≤ ((1 : ℚ) + 10) * 6500 * 60 / volume_ft3 30 40 5 ∧
    ¬ (20 ≤ ((1 : ℚ) + 9) * 6500 * 60 / volume_ft3 30 40 5) := by
  refine ⟨?_, additional_scenario2, ?_, ?_⟩
  · intro w l h n s hv hc
    exact additional_ok hv hc
  · norm_num [volume_ft3, FT3_PER_M3]
  · norm_num [volume_ft3, FT3_PER_M3]

/-- Witness for C4 (amended): the general formula applied at the example
scenario. -/
theorem C4_witness :
    additional_fans_needed 30 40 5 1 wallMount =
      .ok ⌈(20 - ach_calculated 30 40 5 1 wallMount) /
            (wallMount.cfm * 60 / volume_ft3 30 40 5)⌉ :=
  C4_amended_deficit.1 30 40 5 1 wallMount vol_30_40_5_pos (by norm_num [wallMount])

lemma ach_eq_zero_of_degenerate {w l h : ℚ} {n : ℕ} {s : FanSpec}
    (hz : volume_ft3 w l h = 0 ∨ s.cfm = 0) :
    ach_calculated w l h n s = 0 := by
  rcases hz with hv | hc
  · rw [ach_calculated, if_neg]
    rw [hv]
    exact lt_irrefl 0
  · simp [ach_calculated, total_cfm, hc]

lemma additional_error_of_degenerate {w l h : ℚ} {n : ℕ} {s : FanSpec}
    (hz : volume_ft3 w l h = 0 ∨ s.cfm = 0) :
    additional_fans_needed w l h n s = .error .zeroDivision := by
  by_cases hv : volume_ft3 w l h = 0
  · simp [additional_fans_needed, pydiv, hv]
  · rcases hz with hv' | hc
    · exact absurd hv' hv
    · simp [additional_fans_needed, pydiv, hv, hc]

lemma status_error_of_degenerate {w l h : ℚ} {n : ℕ} {s : FanSpec}
    (hz : volume_ft3 w l h = 0 ∨ s.cfm = 0) :
    complianceStatus w l h n s = .error .zeroDivision := by
  have hach : ach_calculated w l h n s < SS_553_TARGET_ACH := by
    rw [ach_eq_zero_of_degenerate hz]
    norm_num [SS_553_TARGET_ACH]
  simp only [complianceStatus, if_pos hach, additional_error_of_degenerate hz]

lemma status_never_invalid (w l h : ℚ) (n : ℕ) (s : FanSpec) :
    complianceStatus w l h n s ≠ .error .invalidConfiguration := by
  have hadd : additional_fans_needed w l h n s ≠ .error .invalidConfiguration := by
    rw [additional_fans_needed]
    by_cases hv : volume_ft3 w l h = 0
    · simp [pydiv, hv]
    · by_cases hp : s.cfm * 60 / volume_ft3 w l h = 0
      · simp [pydiv, hv, hp]
      · simp [pydiv, hv, hp]
  rw [complianceStatus]
  by_cases hlt : ach_calculated w l h n s < SS_553_TARGET_ACH
  · rw [if_pos hlt]
    cases hE : additional_fans_needed w l h n s with
    | error e =>
      rw [hE] at hadd
      intro hcontra
      apply hadd
      simpa using hcontra
    | ok k => simp
  · rw [if_neg hlt]
    simp

/-- C5 counterexample: with zero volume (width 0) the deficit computation does
not fail with the claimed structured `InvalidConfiguration` error; it hits
Python's unguarded `ZeroDivisionError` at
`FAN_SPECS[fan_choice]["cfm"] * 60 / volume_ft3`. -/
theorem C5_counterexample :
    complianceStatus 0 40 5 1 wallMount = .error .zeroDivision ∧
    complianceStatus 0 40 5 1 wallMount ≠ .error .invalidConfiguration := by
  have h0 : volume_ft3 0 40 5 = 0 := by norm_num [volume_ft3]
  exact ⟨status_error_of_degenerate (Or.inl h0), status_never_invalid 0 40 5 1 wallMount⟩

/-- C5 (amended): the code contains no `InvalidConfiguration` guard at all;
when `volume_ft3` or the selected fan model's flow rate is zero, the
compliance branch raises an unguarded `ZeroDivisionError` (the only zero
guard in the code is `ach_calculated`'s `volume_ft3 > 0` check, which merely
reports ACH 0), and no input ever produces an `InvalidConfiguration`
failure. -/
theorem C5_amended_unguarded :
    (∀ (w l h : ℚ) (n : ℕ) (s : FanSpec), volume_ft3 w l h = 0 ∨ s.cfm = 0 →
        complianceStatus w l h n s = .error .zeroDivision ∧
        ach_calculated w l h n s = 0) ∧
    (∀ (w l h : ℚ) (n : ℕ) (s : FanSpec),
        complianceStatus w l h n s ≠ .error .invalidConfiguration) := by
  constructor
  · intro w l h n s hz
    exact ⟨status_error_of_degenerate hz, ach_eq_zero_of_degenerate hz⟩
  · exact status_never_invalid

/-- Witness for C5 (amended) at a zero-flow-rate fan model in a nondegenerate
room. -/
theorem C5_witness :
    complianceStatus 30 40 5 1 ⟨65, 0, 4/5⟩ = .error .zeroDivision ∧
    ach_calculated 30 40 5 1 ⟨65, 0, 4/5⟩ = 0 :=
  C5_amended_unguarded.1 30 40 5 1 ⟨65, 0, 4/5⟩ (Or.inr rfl)

/-- C8: the fixed compliance target is 20 ACH, and for every nondegenerate
input (positive volume, positive catalog flow rate) the compliance section
reports the compliant banner exactly when `ach_calculated ≥ 20`, and the
non-compliant warning (carrying a deficit fan count) otherwise. -/
theorem C8_compliance_iff :
    SS_553_TARGET_ACH = 20 ∧
    ∀ (w l h : ℚ) (n : ℕ) (s : FanSpec), 0 < volume_ft3 w l h → 0 < s.cfm →
      ((complianceStatus w l h n s = .ok .compliant ↔
          20 ≤ ach_calculated w l h n s) ∧
       (ach_calculated w l h n s < 20 →
          ∃ k : ℤ, complianceStatus w l h n s = .ok (.nonCompliant k))) := by
  refine ⟨rfl, ?_⟩
  intro w l h n s hv hc
  by_cases hlt : ach_calculated w l h n s < 20
  · have hst : complianceStatus w l h n s =
        .ok (.nonCompliant ⌈(SS_553_TARGET_ACH - ach_calculated w l h n s) /
            (s.cfm * 60 / volume_ft3 w l h)⌉) := by
      simp only [complianceStatus, if_pos (show ach_calculated w l h n s <
        SS_553_TARGET_ACH from hlt), additional_ok hv hc.ne']
    constructor
    · rw [hst]
      constructor
      · intro hcontra
        simp at hcontra
      · intro h20
        exact absurd h20 (not_le.mpr hlt)
    · intro _
      exact ⟨_, hst⟩
  · have hst : complianceStatus w l h n s = .ok .compliant := by
      simp only [complianceStatus, if_neg (show ¬ ach_calculated w l h n s <
        SS_553_TARGET_ACH from hlt)]
    constructor
    · exact iff_of_true hst (not_lt.mp hlt)
    · intro h20
      exact absurd h20 hlt

/-- Witness for C8: the compliant example scenario and the non-compliant one. -/
theorem C8_witness :
    (complianceStatus 30 40 5 6 hvls = .ok .compliant ↔
        20 ≤ ach_calculated 30 40 5 6 hvls) ∧
    ∃ k : ℤ, complianceStatus 30 40 5 1 wallMount = .ok (.nonCompliant k) := by
  constructor
  · exact (C8_compliance_iff.2 30 40 5 6 hvls vol_30_40_5_pos
      (by norm_num [hvls])).1
  · exact (C8_compliance_iff.2 30 40 5 1 wallMount vol_30_40_5_pos
      (by norm_num [wallMount])).2
      (by rw [ach_30_40_5_1_wallMount]; norm_num)

/-- C10: whenever the configuration is non-compliant (ACH below 20) with
positive volume and positive fan flow rate, the recommended additional fan
count `k` is at least 1 and installing `k` more fans of the same model
reaches compliance: `(n + k) * flow * 60 / volume_ft3 ≥ 20`. -/
theorem C10_recommendation_sufficient (w l h : ℚ) (n : ℕ) (s : FanSpec)
    (hv : 0 < volume_ft3 w l h) (hc : 0 < s.cfm)
    (hach : ach_calculated w l h n s < 20) :
    ∃ k : ℤ, additional_fans_needed w l h n s = .ok k ∧ 1 ≤ k ∧
      20 ≤ ((n : ℚ) + (k : ℚ)) * s.cfm * 60 / volume_ft3 w l h := by
  have hpf : 0 < s.cfm * 60 / volume_ft3 w l h :=
    div_pos (by positivity) hv
  have hadd := additional_ok (n := n) hv hc.ne'
  rw [show SS_553_TARGET_ACH = 20 from rfl] at hadd
  set r := (20 - ach_calculated w l h n s) / (s.cfm * 60 / volume_ft3 w l h)
    with hr
  refine ⟨⌈r⌉, hadd, ?_, ?_⟩
  · exact Int.ceil_pos.mpr (div_pos (by linarith) hpf)
  · have hle : r ≤ (⌈r⌉ : ℚ) := Int.le_ceil r
    have hach_eq := ach_eq hv n s
    have expand : ((n : ℚ) + (⌈r⌉:ℚ)) * s.cfm * 60 / volume_ft3 w l h
        = ach_calculated w l h n s +
          (⌈r⌉:ℚ) * (s.cfm * 60 / volume_ft3 w l h) := by
      rw [hach_eq]
      ring
    have hmul : r * (s.cfm * 60 / volume_ft3 w l h)
        = 20 - ach_calculated w l h n s := by
      rw [hr]
      exact div_mul_cancel₀ _ hpf.ne'
    rw [expand]
    nlinarith [mul_le_mul_of_nonneg_right hle hpf.le]

/-- Witness for C10 at the non-compliant example scenario. -/
theorem C10_witness :
    ∃ k : ℤ, additional_fans_needed 30 40 5 1 wallMount = .ok k ∧ 1 ≤ k ∧
      20 ≤ (((1:ℕ) : ℚ) + (k : ℚ)) * wallMount.cfm * 60 / volume_ft3 30 40 5 :=
  C10_recommendation_sufficient 30 40 5 1 wallMount vol_30_40_5_pos
    (by norm_num [wallMount])
    (by rw [ach_30_40_5_1_wallMount]; norm_num)

lemma height_factor_of_five_le {h : ℚ} (hh : 5 ≤ h) : height_factor h = 1/2 := by
  rw [height_factor, min_eq_right (by linarith : (1:ℚ)/2 ≤ h/10)]
  norm_num

lemma list_range_map_sum (f : ℕ → ℝ) (n : ℕ) :
    ((List.range n).map f).sum = ∑ i ∈ Finset.range n, f i := by
  induction n with
  | zero => simp
  | succ m ih =>
    rw [List.range_succ, Finset.sum_range_succ]
    simp [ih]

/-- C2 counterexample: at the grid point `(0,0)` with a fan at `(0,0)`, ceiling
height 5 and the HVLS model, the code's contribution is `7/4` (the claimed
exponential term is multiplied by the height attenuation factor `1/2`),
whereas the claimed formula `(f/10000) * exp(-distance/(radius*1.5))`
evaluates to `7/2`. -/
theorem C2_counterexample :
    contribution hvls 5 (0, 0) (0, 0) = 7/4 ∧
    ((hvls.cfm / 10000 : ℚ) : ℝ) *
        Real.exp (-Real.sqrt ((distSq (0, 0) (0, 0) : ℚ)) /
          ((hvls.radius : ℝ) * (3/2))) = 7/2 ∧
    (7/4 : ℝ) ≠ 7/2 := by
  have hd : (distSq ((0:ℚ), (0:ℚ)) (0, 0) : ℚ) = 0 := by
    simp [distSq]
  refine ⟨?_, ?_, by norm_num⟩
  · rw [contribution, rawContribution, hd]
    norm_num [strength, hvls, height_factor, Real.exp_zero]
  · rw [hd]
    norm_num [hvls, Real.exp_zero]

/-- C2 (amended): each fan's velocity contribution at grid point `p` is the
claimed exponential term additionally multiplied by the height attenuation
factor `1 - min(height/10, 0.5)`, and for a positive fan count the field is
the elementwise sum of the placed fans' contributions. -/
theorem C2_amended_contribution :
    (∀ (s : FanSpec) (h : ℚ) (p q : ℚ × ℚ),
      contribution s h p q =
        ((s.cfm / 10000 : ℚ) : ℝ) *
          Real.exp (-Real.sqrt (((p.1 - q.1)^2 + (p.2 - q.2)^2 : ℚ)) /
            ((s.radius : ℝ) * (3/2))) *
          ((1 - min (h / 10) (1/2) : ℚ) : ℝ)) ∧
    (∀ (w l h : ℚ) (n : ℕ) (s : FanSpec) (p : ℚ × ℚ), 0 < n →
      V w l h n s p =
        ∑ i ∈ Finset.range n, contribution s h p (fanPos n w l i)) := by
  constructor
  · intro s h p q
    rfl
  · intro w l h n s p hn
    rw [V, if_pos hn]

/-- Witness for C2 (amended): the field at the example configuration is the
sum of the six fans' contributions. -/
theorem C2_witness :
    V 30 40 5 6 hvls (0, 0) =
      ∑ i ∈ Finset.range 6, contribution hvls 5 (0, 0) (fanPos 6 30 40 i) :=
  C2_amended_contribution.2 30 40 5 6 hvls (0, 0) (by norm_num)

/-- C7: for every room with positive dimensions, every fan count and every
catalog fan model, every cell of the computed velocity field is
non-negative. -/
theorem C7_field_nonneg (w l h : ℚ) (hw : 0 < w) (hl : 0 < l) (hh : 0 < h)
    (n : ℕ) (s : FanSpec) (hs : s ∈ catalog) (p : ℚ × ℚ) :
    0 ≤ V w l h n s p := by
  rw [V]
  split
  · exact Finset.sum_nonneg fun i _ =>
      contribution_nonneg (catalog_cfm_pos hs).le h p _
  · exact le_refl 0

/-- Witness for C7 at the example configuration and the origin grid point. -/
theorem C7_witness : 0 ≤ V 30 40 5 6 hvls (0, 0) :=
  C7_field_nonneg 30 40 5 (by norm_num) (by norm_num) (by norm_num) 6 hvls
    (by simp [catalog]) (0, 0)

/-- C9: every fan's contribution is multiplied by the height attenuation
factor `1 - min(height/10, 0.5)`; consequently any two ceiling heights of at
least 5 produce identical fields, and for height at least 5 the field is
exactly half the unattenuated exponential sum. -/
theorem C9_height_attenuation :
    (∀ (s : FanSpec) (h : ℚ) (p q : ℚ × ℚ),
      contribution s h p q =
        rawContribution s p q * ((1 - min (h / 10) (1/2) : ℚ) : ℝ)) ∧
    (∀ (w l h₁ h₂ : ℚ), 5 ≤ h₁ → 5 ≤ h₂ →
      ∀ (n : ℕ) (s : FanSpec) (p : ℚ × ℚ),
        V w l h₁ n s p = V w l h₂ n s p) ∧
    (∀ (w l h : ℚ), 5 ≤ h → ∀ (n : ℕ) (s : FanSpec) (p : ℚ × ℚ),
      V w l h n s p =
        (1/2) * ∑ i ∈ Finset.range n, rawContribution s p (fanPos n w l i)) := by
  have hhalf : ∀ (s : FanSpec) (h : ℚ) (p q : ℚ × ℚ), 5 ≤ h →
      contribution s h p q = (1/2) * rawContribution s p q := by
    intro s h p q hh
    rw [contribution, height_factor_of_five_le hh]
    push_cast
    ring
  have hV : ∀ (w l h : ℚ), 5 ≤ h → ∀ (n : ℕ) (s : FanSpec) (p : ℚ × ℚ),
      V w l h n s p =
        (1/2) * ∑ i ∈ Finset.range n, rawContribution s p (fanPos n w l i) := by
    intro w l h hh n s p
    rw [V]
    split
    · rw [Finset.mul_sum]
      exact Finset.sum_congr rfl fun i _ => hhalf s h p _ hh
    · rename_i hn
      have hn0 : n = 0 := by omega
      subst hn0
      simp
  refine ⟨fun s h p q => rfl, ?_, hV⟩
  intro w l h₁ h₂ hh₁ hh₂ n s p
  rw [hV w l h₁ hh₁ n s p, hV w l h₂ hh₂ n s p]

/-- Witness for C9: heights 5 and 7 give the same field, equal to half the
unattenuated sum. -/
theorem C9_witness :
    V 30 40 5 6 hvls (0, 0) = V 30 40 7 6 hvls (0, 0) ∧
    V 30 40 7 6 hvls (0, 0) =
      (1/2) * ∑ i ∈ Finset.range 6, rawContribution hvls (0, 0) (fanPos 6 30 40 i) :=
  ⟨C9_height_attenuation.2.1 30 40 5 7 (by norm_num) (by norm_num) 6 hvls (0, 0),
   C9_height_attenuation.2.2 30 40 7 (by norm_num) 6 hvls (0, 0)⟩

/-- C6 (amended): the "contributions only add" argument is valid only for a
fixed placement: the field generated from an explicit position list never
loses average velocity when one more fan position is appended.  The code,
however, recomputes all placements when the count changes, and then the
average can decrease (see the counterexample). -/
theorem C6_amended_monotone :
    (∀ (w l h : ℚ) (n : ℕ) (s : FanSpec) (p : ℚ × ℚ), 0 < n →
      V w l h n s p = Vat s h (fanPositions n w l) p) ∧
    (∀ (w l : ℚ) (s : FanSpec) (h : ℚ) (ps : List (ℚ × ℚ)) (q : ℚ × ℚ),
      s ∈ catalog → avgAt w l s h ps ≤ avgAt w l s h (ps ++ [q])) := by
  constructor
  · intro w l h n s p hn
    rw [V, if_pos hn, Vat, fanPositions, List.map_map]
    rw [list_range_map_sum]
    rfl
  · intro w l s h ps q hs
    have hpt : ∀ p, Vat s h ps p ≤ Vat s h (ps ++ [q]) p := by
      intro p
      rw [Vat, Vat, List.map_append, List.sum_append]
      simp only [List.map_cons, List.map_nil, List.sum_cons, List.sum_nil,
        add_zero]
      have := contribution_nonneg (catalog_cfm_pos hs).le h p q
      linarith
    rw [avgAt, avgAt]
    have hsum := Finset.sum_le_sum
      (fun ab _ => hpt (gridCoord w ab.2, gridCoord l ab.1))
      (s := (Finset.univ : Finset (Fin grid_size × Fin grid_size)))
    linarith

/-- Witness for C6 (amended): appending a seventh fan position to the
six-fan layout does not decrease the average. -/
theorem C6_witness :
    V 30 40 5 6 hvls (0, 0) = Vat hvls 5 (fanPositions 6 30 40) (0, 0) ∧
    avgAt 30 40 hvls 5 (fanPositions 6 30 40) ≤
      avgAt 30 40 hvls 5 (fanPositions 6 30 40 ++ [(15, 20)]) :=
  ⟨C6_amended_monotone.1 30 40 5 6 hvls (0, 0) (by norm_num),
   C6_amended_monotone.2 30 40 hvls 5 (fanPositions 6 30 40) (15, 20)
     (by simp [catalog])⟩

/-! ### Counterexample machinery for the fan-count monotonicity claim

In a 78000 × 78000 room (grid spacing 2000) with the wall-mount model
(decay length 6/5), the 9-fan layout puts every fan coordinate exactly
halfway between grid lines (all distances at least 1000), while the 8-fan
layout has a fan at (9750, 19500), close to the grid point (10000, 20000).
The exponential decay then makes the 9-fan average strictly smaller. -/

lemma rows_eight : rows 8 = 2 := by
  rw [rows]
  norm_num

lemma rows_nine : rows 9 = 3 := by
  rw [rows]
  norm_num

lemma cols_eight : cols 8 = 4 := by
  rw [cols, rows_eight, Nat.ceil_eq_iff (by norm_num)]
  norm_num

lemma cols_nine : cols 9 = 3 := by
  rw [cols, rows_nine, Nat.ceil_eq_iff (by norm_num)]
  norm_num

lemma fanX_nine (i : ℕ) :
    fanX 9 78000 i = 26000 * ((i % 3 : ℕ) : ℚ) + 13000 := by
  rw [fanX, cols_nine, if_pos (by norm_num : (0:ℕ) < 3)]
  push_cast
  ring

lemma fanPos_eight_zero : fanPos 8 78000 78000 0 = (9750, 19500) := by
  rw [fanPos, fanX, fanY, cols_eight, rows_eight]
  norm_num

lemma nine_fan_x_far (b i : ℕ) :
    (1000000 : ℚ) ≤ (gridCoord 78000 b - fanX 9 78000 i)^2 := by
  rw [gridCoord, fanX_nine]
  have key : (b : ℚ) * 78000 / 39 - (26000 * ((i % 3 : ℕ) : ℚ) + 13000)
      = 1000 * (2*(b:ℚ) - 26*((i % 3 : ℕ):ℚ) - 13) := by
    ring
  rw [key]
  have hne : (2*(b:ℤ) - 26*((i % 3 : ℕ):ℤ) - 13) ≠ 0 := by
    intro h0
    omega
  have h1 : 1 ≤ (2*(b:ℤ) - 26*((i % 3 : ℕ):ℤ) - 13)^2 := by
    rcases lt_or_gt_of_ne hne with h | h
    · nlinarith
    · nlinarith
  have h1' : (1 : ℚ) ≤ (2*(b:ℚ) - 26*((i % 3 : ℕ):ℚ) - 13)^2 := by
    exact_mod_cast h1
  nlinarith

lemma V_nonneg {s : FanSpec} (hc : 0 ≤ s.cfm) (w l h : ℚ) (n : ℕ) (p : ℚ × ℚ) :
    0 ≤ V w l h n s p := by
  rw [V]
  split
  · exact Finset.sum_nonneg fun i _ => contribution_nonneg hc h p _
  · exact le_refl 0

lemma contribution_nine_le (b a i : ℕ) :
    contribution wallMount 5 (gridCoord 78000 b, gridCoord 78000 a)
      (fanPos 9 78000 78000 i) ≤ 13/40 * Real.exp (-(2500/3)) := by
  rw [contribution, rawContribution, height_factor_of_five_le (le_refl 5)]
  have hstr : ((strength wallMount : ℚ) : ℝ) = 13/20 := by
    norm_num [strength, wallMount]
  have hrad : ((wallMount.radius : ℚ) : ℝ) = 4/5 := by
    norm_num [wallMount]
  have hd : (1000000 : ℚ) ≤ distSq (gridCoord 78000 b, gridCoord 78000 a)
      (fanPos 9 78000 78000 i) := by
    rw [distSq, fanPos]
    have h1 := nine_fan_x_far b i
    have h2 : (0:ℚ) ≤ (gridCoord 78000 a - fanY 9 78000 i)^2 := sq_nonneg _
    linarith
  have hd' : (1000000 : ℝ) ≤ ((distSq (gridCoord 78000 b, gridCoord 78000 a)
      (fanPos 9 78000 78000 i) : ℚ) : ℝ) := by
    exact_mod_cast hd
  have hsqrt : (1000 : ℝ) ≤ Real.sqrt ((distSq (gridCoord 78000 b, gridCoord 78000 a)
      (fanPos 9 78000 78000 i) : ℚ) : ℝ) :=
    (Real.le_sqrt (by norm_num) (by linarith)).mpr (by nlinarith)
  have hexp : Real.exp (-Real.sqrt ((distSq (gridCoord 78000 b, gridCoord 78000 a)
      (fanPos 9 78000 78000 i) : ℚ) : ℝ) / (((wallMount.radius : ℚ) : ℝ) * (3/2)))
      ≤ Real.exp (-(2500/3)) := by
    apply Real.exp_le_exp.mpr
    rw [hrad]
    have e : -Real.sqrt ((distSq (gridCoord 78000 b, gridCoord 78000 a)
        (fanPos 9 78000 78000 i) : ℚ) : ℝ) / ((4:ℝ)/5 * (3/2))
        = -(5/6) * Real.sqrt ((distSq (gridCoord 78000 b, gridCoord 78000 a)
            (fanPos 9 78000 78000 i) : ℚ) : ℝ) := by
      ring
    rw [e]
    linarith
  rw [hstr]
  have hhalf : (((1:ℚ)/2 : ℚ) : ℝ) = 1/2 := by norm_num
  rw [hhalf]
  nlinarith [Real.exp_pos (-Real.sqrt ((distSq (gridCoord 78000 b, gridCoord 78000 a)
      (fanPos 9 78000 78000 i) : ℚ) : ℝ) / (((wallMount.radius : ℚ) : ℝ) * (3/2)))]

lemma avg_nine_le :
    avg_velocity 78000 78000 5 9 wallMount ≤ 9 * (13/40 * Real.exp (-(2500/3))) := by
  rw [avg_velocity]
  have hcell : ∀ ab : Fin grid_size × Fin grid_size,
      V 78000 78000 5 9 wallMount (gridCoord 78000 ab.2, gridCoord 78000 ab.1)
        ≤ 9 * (13/40 * Real.exp (-(2500/3))) := by
    intro ab
    rw [V, if_pos (by norm_num : 0 < 9)]
    calc ∑ i ∈ Finset.range 9,
          contribution wallMount 5 (gridCoord 78000 ab.2, gridCoord 78000 ab.1)
            (fanPos 9 78000 78000 i)
        ≤ ∑ _i ∈ Finset.range 9, 13/40 * Real.exp (-(2500/3)) :=
          Finset.sum_le_sum fun i _ => contribution_nine_le ab.2 ab.1 i
      _ = 9 * (13/40 * Real.exp (-(2500/3))) := by
          rw [Finset.sum_const, Finset.card_range, nsmul_eq_mul]
          norm_num
  have hsum : (∑ ab : Fin grid_size × Fin grid_size,
      V 78000 78000 5 9 wallMount (gridCoord 78000 ab.2, gridCoord 78000 ab.1))
      ≤ 1600 * (9 * (13/40 * Real.exp (-(2500/3)))) := by
    calc (∑ ab : Fin grid_size × Fin grid_size,
        V 78000 78000 5 9 wallMount (gridCoord 78000 ab.2, gridCoord 78000 ab.1))
        ≤ ∑ _ab : Fin grid_size × Fin grid_size,
            (9 * (13/40 * Real.exp (-(2500/3)))) :=
          Finset.sum_le_sum fun ab _ => hcell ab
      _ = 1600 * (9 * (13/40 * Real.exp (-(2500/3)))) := by
          rw [Finset.sum_const, nsmul_eq_mul]
          norm_num [grid_size]
  linarith

lemma avg_eight_ge :
    13/40 * Real.exp (-(1400/3)) / 1600 ≤ avg_velocity 78000 78000 5 8 wallMount := by
  have hterm : 13/40 * Real.exp (-(1400/3)) ≤
      V 78000 78000 5 8 wallMount (gridCoord 78000 5, gridCoord 78000 10) := by
    rw [V, if_pos (by norm_num : 0 < 8)]
    have h0 : 13/40 * Real.exp (-(1400/3)) ≤
        contribution wallMount 5 (gridCoord 78000 5, gridCoord 78000 10)
          (fanPos 8 78000 78000 0) := by
      rw [contribution, rawContribution, height_factor_of_five_le (le_refl 5)]
      have hq : distSq (gridCoord 78000 5, gridCoord 78000 10)
          (fanPos 8 78000 78000 0) = 312500 := by
        rw [fanPos_eight_zero, distSq, gridCoord, gridCoord]
        norm_num
      rw [hq]
      have hstr : ((strength wallMount : ℚ) : ℝ) = 13/20 := by
        norm_num [strength, wallMount]
      have hrad : ((wallMount.radius : ℚ) : ℝ) = 4/5 := by
        norm_num [wallMount]
      set sq : ℝ := Real.sqrt ((312500 : ℚ) : ℝ) with hsq
      have hsqrt : sq ≤ 560 := by
        rw [hsq, Real.sqrt_le_left (by norm_num)]
        norm_num
      have hexp : Real.exp (-(1400/3)) ≤
          Real.exp (-sq / (((wallMount.radius : ℚ) : ℝ) * (3/2))) := by
        apply Real.exp_le_exp.mpr
        rw [hrad]
        have e : -sq / ((4:ℝ)/5 * (3/2)) = -(5/6) * sq := by
          ring
        rw [e]
        linarith
      rw [hstr]
      have hhalf : (((1:ℚ)/2 : ℚ) : ℝ) = 1/2 := by norm_num
      rw [hhalf]
      nlinarith [Real.exp_pos (-sq / (((wallMount.radius : ℚ) : ℝ) * (3/2)))]
    have hsingle : contribution wallMount 5 (gridCoord 78000 5, gridCoord 78000 10)
        (fanPos 8 78000 78000 0)
        ≤ ∑ i ∈ Finset.range 8,
            contribution wallMount 5 (gridCoord 78000 5, gridCoord 78000 10)
              (fanPos 8 78000 78000 i) :=
      Finset.single_le_sum
        (fun i _ => contribution_nonneg (by norm_num [wallMount]) 5 _ _)
        (Finset.mem_range.mpr (by norm_num : (0:ℕ) < 8))
    linarith
  rw [avg_velocity]
  have houter : V 78000 78000 5 8 wallMount (gridCoord 78000 5, gridCoord 78000 10)
      ≤ ∑ ab : Fin grid_size × Fin grid_size,
          V 78000 78000 5 8 wallMount (gridCoord 78000 ab.2, gridCoord 78000 ab.1) := by
    have h := Finset.single_le_sum
      (f := fun ab : Fin grid_size × Fin grid_size =>
        V 78000 78000 5 8 wallMount (gridCoord 78000 ab.2, gridCoord 78000 ab.1))
      (fun ab _ => V_nonneg (by norm_num [wallMount]) _ _ _ _ _)
      (Finset.mem_univ ((⟨10, by norm_num [grid_size]⟩ : Fin grid_size),
        (⟨5, by norm_num [grid_size]⟩ : Fin grid_size)))
    exact h
  linarith

lemma exp_gap : (14400 : ℝ) * Real.exp (-(2500/3)) < Real.exp (-(1400/3)) := by
  have hsplit : Real.exp (-(1400/3) : ℝ)
      = Real.exp (1100/3) * Real.exp (-(2500/3)) := by
    rw [← Real.exp_add]
    norm_num
  have h550 : (553/3 : ℝ) ≤ Real.exp (550/3) := by
    have := Real.add_one_le_exp (550/3 : ℝ)
    linarith
  have hsq : Real.exp (1100/3 : ℝ) = Real.exp (550/3) * Real.exp (550/3) := by
    rw [← Real.exp_add]
    norm_num
  have hbig : (14400 : ℝ) < Real.exp (1100/3) := by
    rw [hsq]
    nlinarith
  have hE : (0:ℝ) < Real.exp (-(2500/3)) := Real.exp_pos _
  rw [hsplit]
  nlinarith

/-- C6 counterexample: with the wall-mount model in a 78000 × 78000 room at
ceiling height 5, going from 8 to 9 fans strictly decreases the average
velocity of the simulated field: the 9-fan grid layout places every fan far
from every sample point of the fixed 40 × 40 grid, while the 8-fan layout
has a fan near a sample point. -/
theorem C6_counterexample :
    avg_velocity 78000 78000 5 9 wallMount < avg_velocity 78000 78000 5 8 wallMount := by
  have h1 := avg_nine_le
  have h2 := avg_eight_ge
  have h3 := exp_gap
  have hE : (0:ℝ) < Real.exp (-(2500/3)) := Real.exp_pos _
  nlinarith

end Airflow
